import Mathlib

/-!
Verification of the xcon hierarchical configuration resolution engine.

This file gives a shallow embedding of the core data model and algorithms of
the library (directory paths, the provider chain traversal, the shared-cache
reader and writer, the AWS error handler, the SSM provider's per-directory
cache, and the Config-level cacher selection) and proves or refutes the
frozen specification claims against it.

Strings are modelled with Lean's `String`; the Python helpers that walk
character-by-character (`str.split('/')`, `'/'.join`, `format_map`) are
implemented over `List Char` and wrapped.
-/

namespace Xcon

/-- Open-brace character, written via its code point. -/
def braceL : Char := '\x7b'

/-- Close-brace character, written via its code point. -/
def braceR : Char := '\x7d'

/-- Python `path.split("/")` over characters: splits on every slash and keeps
empty components, so the result is always non-empty. -/
def splitSlashChars : List Char → List (List Char)
  | [] => [[]]
  | c :: cs =>
    if c = '/' then [] :: splitSlashChars cs
    else
      match splitSlashChars cs with
      | [] => [[c]]
      | h :: t => (c :: h) :: t

/-- Python `"/".join(parts)` over characters. -/
def joinSlashChars : List (List Char) → List Char
  | [] => []
  | [p] => p
  | p :: ps => p ++ '/' :: joinSlashChars ps

/-- Python `path.split("/")` on strings. -/
def pySplitSlash (s : String) : List String :=
  (splitSlashChars s.data).map (fun l => String.mk l)

/-- Python `"/".join(parts)` on strings. -/
def pyJoinSlash (parts : List String) : String :=
  String.mk (joinSlashChars (parts.map String.data))

/-- One pass of Python `str.format_map` restricted to plain placeholder fields
(no conversions or format specs, which directory paths never use): scans the
characters, and between an open and a close brace collects the field name,
substituting the field named service or environment.  Unknown fields are
substituted by the collected key itself surrounded by braces (never reached on
validated paths).  The accumulator is `none` outside a placeholder and the
collected key characters inside one. -/
def fmtAux (s e : String) (acc : Option (List Char)) : List Char → List Char
  | [] => []
  | c :: rest =>
    match acc with
    | none =>
      if c = braceL then fmtAux s e (some []) rest
      else c :: fmtAux s e none rest
    | some key =>
      if c = braceR then
        (if String.mk key = "service" then s.data
         else if String.mk key = "environment" then e.data
         else braceL :: key ++ [braceR]) ++ fmtAux s e none rest
      else fmtAux s e (some (key ++ [c])) rest

/-- Python `path.format_map(dict(service=s, environment=e))` for plain
placeholders. -/
def formatMap (p s e : String) : String :=
  String.mk (fmtAux s e none p.data)

/-- Collect the placeholder field names of a path, mirroring the use of
`string.Formatter().parse` in `Directory.__post_init__` (plain fields only). -/
def fmtKeysAux (acc : Option (List Char)) : List Char → List String
  | [] => []
  | c :: rest =>
    match acc with
    | none =>
      if c = braceL then fmtKeysAux (some []) rest
      else fmtKeysAux none rest
    | some key =>
      if c = braceR then String.mk key :: fmtKeysAux none rest
      else fmtKeysAux (some (key ++ [c])) rest

/-- The set (as a list) of placeholder names occurring in a path. -/
def formatKeys (p : String) : List String :=
  fmtKeysAux none p.data

/-- Truthiness of an optional string, as Python sees it: `None` and the empty
string are falsy. -/
def optTruthy : Option String → Bool
  | none => false
  | some s => s ≠ ""

/-- Whether the second character list is a leading segment of the first. -/
def prefixChars : List Char → List Char → Bool
  | [], _ => true
  | _ :: _, [] => false
  | p :: ps, c :: cs => p = c && prefixChars ps cs

/-- Python `s.startswith(pre)`. -/
def pyStartsWith (s pre : String) : Bool :=
  prefixChars pre.data s.data

/-- Python `s.lower()` (character-wise). -/
def pyLower (s : String) : String :=
  String.mk (s.data.map Char.toLower)

/-- A string has no slash character. -/
def noSlash (s : String) : Prop := '/' ∉ s.data

instance (s : String) : Decidable (noSlash s) := by
  unfold noSlash; infer_instance

/-- A string has no brace characters. -/
def noBrace (s : String) : Prop := braceL ∉ s.data ∧ braceR ∉ s.data

instance (s : String) : Decidable (noBrace s) := by
  unfold noBrace; infer_instance

/-! ## Directory model (`xcon/directory.py`) -/

/-- `_service_env_from_path` (directory.py): split the path on slashes;
the service is element 1 when present, the environment is the slash-join of
elements 2 onward when present.  The process-wide intern cache consulted by
the Python function is not modelled; for paths parsed from scratch the Python
code computes exactly this. -/
def serviceEnvFromPath (path : String) : Option String × Option String :=
  let elements := pySplitSlash path
  let service := if elements.length > 1 then elements.get? 1 else none
  let env :=
    if elements.length > 2 then some (pyJoinSlash (elements.drop 2)) else none
  (service, env)

/-- `Directory._path_from_components` (directory.py): default a falsy service
to global, strip a leading slash of the environment, prefix the environment
with the export segment when requested, and join. -/
def pathFromComponents (service : Option String) (environment : Option String)
    (isExport : Bool) : String :=
  let service := if optTruthy service then service.getD "" else "global"
  let path := "/" ++ service
  let environment :=
    if optTruthy environment && pyStartsWith (environment.getD "") "/" then
      some ((environment.getD "").drop 1)
    else environment
  let environment :=
    if isExport then
      if !optTruthy environment then some "export"
      else if !pyStartsWith (environment.getD "") "export/" then
        some ("export/" ++ environment.getD "")
      else environment
    else environment
  if optTruthy environment then path ++ "/" ++ environment.getD "" else path

/-- The fields of a `Directory` dataclass instance after `__post_init__`. -/
structure PyDirectory where
  path : String
  service : String
  env : Option String
  isExport : Bool
  isPathFormat : Bool
  isNonExistent : Bool
deriving DecidableEq, Repr

/-- `Directory.__post_init__` without the final validation of placeholder
names: computes the service and environment (from the path when one is given),
defaults the service to global, recomputes the path from the components,
detects the non-existent sentinel, auto-raises the export flag when the
environment starts with an export segment, and auto-discovers the
path-format flag unless the caller passed an explicit false. -/
def mkDirectoryRaw (pathArg : Option String) (serviceArg envArg : Option String)
    (isExportArg : Bool) (ipfArg : Option Bool) : PyDirectory :=
  let parsed :=
    match pathArg with
    | some p => serviceEnvFromPath p
    | none => (serviceArg, envArg)
  let service := if optTruthy parsed.1 then parsed.1.getD "" else "global"
  let env := parsed.2
  let path := pathFromComponents (some service) env isExportArg
  let isNonExistent := path = "/_nonExistent"
  let isExport :=
    if !isExportArg then
      optTruthy env &&
        (pyStartsWith (env.getD "") "export" || pyStartsWith (env.getD "") "/export")
    else isExportArg
  let isPathFormat :=
    match ipfArg with
    | some false => false
    | _ => !(formatKeys path).isEmpty
  ⟨path, service, env, isExport, isPathFormat, isNonExistent⟩

/-- `Directory.__post_init__` with its checks: a path may not be combined with
service or environment components, and when the path-format flag is
auto-discovered or true, placeholder names other than service and environment
raise a `ConfigError`. -/
def mkDirectory (pathArg : Option String) (serviceArg envArg : Option String)
    (isExportArg : Bool) (ipfArg : Option Bool) : Except String PyDirectory :=
  if pathArg.isSome && (optTruthy envArg || optTruthy serviceArg) then
    .error "Cannot provide an env or service simultaneously with a path."
  else
    let d := mkDirectoryRaw pathArg serviceArg envArg isExportArg ipfArg
    if ipfArg ≠ some false &&
        ((formatKeys d.path).any (fun k => k ≠ "service" && k ≠ "environment")) then
      .error "Using unknown format keys for directory path."
    else
      .ok d

/-- The standard non-existent sentinel directory, `Directory.from_non_existent`. -/
def nonExistentDirectory : PyDirectory :=
  mkDirectoryRaw (some "/_nonExistent") none none false none

/-- The dataclass equality of `Directory`: generated from the fields with
compare set to true, which are the path and the path-format flag. -/
def dirEqB (d1 d2 : PyDirectory) : Bool :=
  d1.path = d2.path && d1.isPathFormat = d2.isPathFormat

/-- The tuple of fields entering the generated `Directory.__hash__`: the
path-format flag is declared with hash set to false, so only the path is
hashed. -/
def dirHashFields (d : PyDirectory) : String := d.path

/-- `Directory.resolve` (directory.py): a non-template directory resolves to
itself; otherwise the path is formatted with the service and environment, an
unchanged path resolves to the directory itself, and a changed one to a fresh
directory built from the formatted path with the path-format flag forced
false.  The per-directory memo cache only caches results and is not
modelled. -/
def resolveDir (d : PyDirectory) (service environment : String) : PyDirectory :=
  if !d.isPathFormat then d
  else
    let formatted := formatMap d.path service environment
    if formatted = d.path then d
    else mkDirectoryRaw (some formatted) none none false (some false)

/-! ## DirectoryItem model (`xcon/directory.py`) -/

/-- The fields of a `DirectoryItem` needed by the chain and the cacher.
The directory is kept as its path plus its non-existent flag; values are
strings (the JSON decoding layer is out of scope); the ttl is unix seconds. -/
structure Item where
  name : String
  dirPath : String
  dirIsNonExistent : Bool
  value : Option String
  cacheable : Bool
  source : String
  ttl : Option Int := none
  cacheConcatDirectoryPaths : Option String := none
  cacheConcatProviderNames : Option String := none
  cacheHashKey : Option String := none
  cacheRangeKey : Option String := none
deriving DecidableEq, Repr

/-- `DirectoryItem.__post_init__` on the modelled fields: a missing directory
becomes the non-existent sentinel, the name is lower-cased, and when only the
two chain fingerprints are given the range key is assembled from the name and
the fingerprints. -/
def mkItem (directory : Option (String × Bool)) (name : String)
    (value : Option String) (source : String) (cacheable : Bool := true)
    (ttl : Option Int := none)
    (ccdp ccpn chk : Option String := none) : Item :=
  let dirPath := (directory.map Prod.fst).getD nonExistentDirectory.path
  let dirNE := (directory.map Prod.snd).getD true
  let lower := pyLower name
  let crk :=
    if ccdp.isSome && ccpn.isSome then
      some (lower ++ "|+|" ++ ccdp.getD "" ++ "|+|" ++ ccpn.getD "")
    else none
  ⟨lower, dirPath, dirNE, value, cacheable, source, ttl, ccdp, ccpn, chk, crk⟩

/-- An association list standing in for a Python dict with string keys:
keys are unique and insertion order is significant. -/
abbrev ItemMap := List (String × Item)

/-- Membership of a key in a dict. -/
def mapHasKey (m : ItemMap) (k : String) : Bool :=
  m.any (fun kv => kv.1 = k)

/-- Dict lookup. -/
def mapGet (m : ItemMap) (k : String) : Option Item :=
  (m.find? (fun kv => kv.1 = k)).map Prod.snd

/-- A merged dict built by unpacking a then b: the keys of a in their order
(with the value from b when b has the key), then the keys only in b, in
b's order. -/
def mapMerge (a b : ItemMap) : ItemMap :=
  a.map (fun kv => (kv.1, (mapGet b kv.1).getD kv.2)) ++
    b.filter (fun kv => !mapHasKey a kv.1)

/-- Dict assignment: replace in place when the key exists, append otherwise. -/
def mapInsert (m : ItemMap) (k : String) (v : Item) : ItemMap :=
  if mapHasKey m k then
    m.map (fun kv => if kv.1 = k then (k, v) else kv)
  else m ++ [(k, v)]

/-- The values of a dict in insertion order. -/
def mapValues (m : ItemMap) : List Item := m.map Prod.snd

/-! ## Provider chain (`xcon/provider.py`) -/

/-- `ProviderChain.__post_init__` loop computing the provider key names: a
leading provider with query-before-cache set is skipped; from the first one
with the flag unset onwards every name is appended.  A provider is a pair of
its name and its query-before-cache flag. -/
def providerKeyNames : List (String × Bool) → Bool → List String
  | [], _ => []
  | p :: ps, queryBeforeFinished =>
    if queryBeforeFinished then p.1 :: providerKeyNames ps true
    else if p.2 then providerKeyNames ps false
    else p.1 :: providerKeyNames ps true

/-- `ProviderChain.concatenated_provider_names`: pipe-join of the key names. -/
def concatenatedProviderNames (ps : List (String × Bool)) : String :=
  String.intercalate "|" (providerKeyNames ps false)

/-- `ProviderChain.have_any_cachable_providers`: false exactly when every
provider has the query-before-cache flag set. -/
def haveAnyCachableProviders (ps : List (String × Bool)) : Bool :=
  !(ps.all (fun p => p.2))

/-- `DirectoryChain.concatenated_directory_paths`: pipe-join of the paths. -/
def concatenatedDirectoryPaths (ds : List PyDirectory) : String :=
  String.intercalate "|" (ds.map (fun d => d.path))

/-- A provider as the chain sees it during one lookup: its name and flag, its
answer per name and directory, its retrieved-items map per directory (none
when the directory has not been listed), and its per-directory error state as
observed by the chain after the call. -/
structure ProviderModel where
  name : String
  queryBeforeCacheIfPossible : Bool
  getItem : String → PyDirectory → Option Item
  retrievedItemsMap : PyDirectory → Option ItemMap
  hasError : PyDirectory → Bool

/-- `ProviderChain._providers_with_cacher`: providers in order, the cacher
inserted once immediately before the first provider whose query-before-cache
flag is unset; the flag is ignored after that point. -/
def providersWithCacher (providers : List ProviderModel)
    (cacher : Option ProviderModel) : List ProviderModel :=
  go providers false
where
  go : List ProviderModel → Bool → List ProviderModel
    | [], _ => []
    | p :: ps, alreadyUsedCache =>
      if alreadyUsedCache || p.queryBeforeCacheIfPossible then
        p :: go ps alreadyUsedCache
      else
        match cacher with
        | some c => c :: p :: go ps true
        | none => p :: go ps true

/-- The diagnostic entry appended to places-checked for one provider visit,
with the result classification exactly as in `ProviderChain.get_item`. -/
def placeString (p : ProviderModel) (d : PyDirectory) (it : Option Item) : String :=
  let result :=
    if p.hasError d then "error"
    else
      match it with
      | some i => if i.dirIsNonExistent then "found(cached-as-non-existent)" else "found"
      | none => "not-found"
  p.name ++ ":" ++ d.path ++ " | result=" ++ result

/-- The inner provider loop of `ProviderChain.get_item` for one directory:
ask each provider in turn, record a places entry for each visit, and stop at
the first non-null item. -/
def innerScan (name : String) (d : PyDirectory) :
    List ProviderModel → Option Item × List String
  | [] => (none, [])
  | p :: ps =>
    let it := p.getItem name d
    let place := placeString p d it
    match it with
    | some i => (some i, [place])
    | none =>
      let rest := innerScan name d ps
      (rest.1, place :: rest.2)

/-- `ProviderChain.retrieved_items_map`: fold the providers in order, merging
each retrieved map underneath what was already collected, stopping at the
first provider that has not retrieved the directory. -/
def chainRetrievedAux (d : PyDirectory) (finalMap : ItemMap) :
    List ProviderModel → ItemMap
  | [] => finalMap
  | p :: ps =>
    match p.retrievedItemsMap d with
    | none => finalMap
    | some m => chainRetrievedAux d (mapMerge m finalMap) ps

/-- `ProviderChain.retrieved_items_map` starting from an empty map. -/
def chainRetrievedItemsMap (providers : List ProviderModel) (d : PyDirectory) :
    ItemMap :=
  chainRetrievedAux d [] providers

/-- The outcome of `ProviderChain.get_item`: the returned item, the
places-checked diagnostic list, and the list of items handed to the cacher's
`cache_items` (none when the cacher was not invoked). -/
structure ChainResult where
  item : Item
  placesChecked : List String
  cacheWrite : Option (List Item)
deriving Repr

/-- The directory loop of `ProviderChain.get_item`, threading the use-cacher
flag, the items collected for the cache write, and the places checked. -/
def chainLoop (providers : List ProviderModel) (cacher : Option ProviderModel)
    (name : String) :
    List PyDirectory → Bool → ItemMap → List String →
      Option Item × Bool × ItemMap × List String
  | [], useCacher, itemsCache, places => (none, useCacher, itemsCache, places)
  | d :: ds, useCacher, itemsCache, places =>
    let seq := providersWithCacher providers cacher
    let scan := innerScan name d seq
    let places := places ++ scan.2
    let useCacher :=
      match scan.1 with
      | some i => if useCacher && !i.cacheable then false else useCacher
      | none => useCacher
    let itemsCache :=
      if useCacher then mapMerge (chainRetrievedItemsMap providers d) itemsCache
      else itemsCache
    match scan.1 with
    | some i => (some i, useCacher, itemsCache, places)
    | none => chainLoop providers cacher name ds useCacher itemsCache places

/-- `ProviderChain.get_item`: run the directory loop; when nothing was found
substitute the synthetic non-existent item; finally, when the cacher is in use
and the item is cacheable, insert the item into the collected map and hand the
values to the cacher. -/
def chainGetItem (providers : List ProviderModel) (cacher : Option ProviderModel)
    (environ : Option PyDirectory) (name : String) (dirs : List PyDirectory) :
    ChainResult :=
  let useCacher0 := cacher.isSome && environ.isSome
  let out := chainLoop providers cacher name dirs useCacher0 [] []
  let item := out.1.getD (mkItem none name none "/_nonExistent")
  let useCacher := out.2.1
  let itemsCache := out.2.2.1
  if useCacher && item.cacheable then
    ⟨item, out.2.2.2, some (mapValues (mapInsert itemsCache item.name item))⟩
  else
    ⟨item, out.2.2.2, none⟩

/-! ## AWS error handling (`xcon/providers/common.py`) -/

/-- The shape of an exception as `handle_aws_exception` inspects it: one of
the two botocore classes in the ignore set, any other botocore error, a client
error carrying an optional error code (plus whether it has a response
attribute at all), or any other exception. -/
inductive AwsExceptionModel where
  | noCredentialsError
  | noRegionError
  | otherBotoCoreError
  | clientError (code : Option String) (hasResponse : Bool)
  | otherException
deriving DecidableEq, Repr

/-- What `handle_aws_exception` does with an exception: swallow it because of
its class, swallow it because of its error code, or re-raise it. -/
inductive HandleResult where
  | ignoredClass
  | ignoredCode (code : String)
  | reraised
deriving DecidableEq, Repr

/-- `aws_error_codes_to_ignore` (common.py) exactly as the Python set literal
evaluates: the source lists the access-denied, invalid-signature,
unrecognized-client, expired-token and resource-not-found codes, but the
comma after the unrecognized-client string is missing, so Python joins
the two adjacent string literals into the single string
UnrecognizedClientExceptionExpiredTokenException. -/
def awsErrorCodesToIgnore : List String :=
  ["AccessDeniedException",
   "InvalidSignatureException",
   "UnrecognizedClientExceptionExpiredTokenException",
   "ResourceNotFoundException"]

/-- `handle_aws_exception` (common.py): swallow the two botocore classes in
the ignore set; re-raise anything that is not a client error or has no
response; swallow a client error whose code is in the ignore set; re-raise
the rest.  Swallowing also marks the directory errored, which the state
models capture separately. -/
def handleAwsException : AwsExceptionModel → HandleResult
  | .noCredentialsError => .ignoredClass
  | .noRegionError => .ignoredClass
  | .otherBotoCoreError => .reraised
  | .clientError code hasResponse =>
    if !hasResponse then .reraised
    else
      match code with
      | some c => if c ∈ awsErrorCodesToIgnore then .ignoredCode c else .reraised
      | none => .reraised
  | .otherException => .reraised

/-! ## Environmental provider (`xcon/providers/environmental.py`) -/

/-- `EnvironmentalProvider._create_snapshot` item construction: every
environment variable becomes an item in the `/_environmental` directory with
cacheable false and source env. -/
def envSnapshotItems (pairs : List (String × String)) : List Item :=
  pairs.map (fun kv =>
    mkItem (some ("/_environmental", false)) kv.1 (some kv.2) "env" false)

/-! ## Dynamo cache table reads (`xcon/providers/dynamo.py`) -/

/-- One row of the shared cache table, with the attributes the read path
filters on and an opaque payload index. -/
structure CacheRow where
  appKey : String
  ttl : Option Int
  payload : Nat
deriving DecidableEq, Repr

/-- `_ConfigDynamoTable.get_items_for_directory` as a query over the table
rows: keep the partition of the directory path, and when an expire time is
given keep only rows without a ttl or with a ttl strictly greater than it. -/
def getItemsForDirectory (rows : List CacheRow) (dirPath : String)
    (expireTime : Option Int) : List CacheRow :=
  rows.filter (fun r =>
    r.appKey = dirPath &&
      match expireTime, r.ttl with
      | none, _ => true
      | some _, none => true
      | some t, some ttl => ttl > t)

/-- `DynamoCacher._get_items_for_environ` table fetch: the expire time passed
to the query is the current time plus a random jitter of up to two hours
(`random.randint(0, 60 * 60 * 2)` seconds). -/
def getItemsForEnviron (rows : List CacheRow) (environPath : String)
    (now jitter : Int) : List CacheRow :=
  getItemsForDirectory rows environPath (some (now + jitter))

/-- The read-set the claim describes, in the spec's words: rows of the
environ partition whose ttl is absent or strictly in the future of now. -/
def claimedCacherReadSet (rows : List CacheRow) (environPath : String)
    (now : Int) : List CacheRow :=
  rows.filter (fun r =>
    r.appKey = environPath &&
      match r.ttl with
      | none => true
      | some ttl => ttl > now)

/-! ## Dynamo cacher writes (`xcon/providers/dynamo.py`) -/

/-- The transformation `DynamoCacher.cache_items` applies to a cacheable item
before sending it: same directory, name and value, the source suffixed with
the directory path, the chosen ttl, and the chain fingerprints plus environ
hash key (from which the range key is derived). -/
def cacheTransform (it : Item) (ttlUsed : Int) (concatD concatP envPath : String) :
    Item :=
  mkItem (some (it.dirPath, it.dirIsNonExistent)) it.name it.value
    (it.source ++ " - " ++ it.dirPath) true (some ttlUsed)
    (some concatD) (some concatP) (some envPath)

/-- The selection loop of `DynamoCacher.cache_items` fused with the generator
`DirectoryListing.get_items_with_different_value`: walk the incoming items;
one that is absent from the listing or carries a different value is a
candidate; a cacheable candidate is transformed (honouring its own shorter
ttl), added to the listing, and queued for sending; everything else is
skipped.  The listing is threaded because the loop body mutates it while the
generator reads it. -/
def cacheItemsLoop (defaultTtl : Int) (concatD concatP envPath : String) :
    List Item → ItemMap → ItemMap × List Item
  | [], listing => (listing, [])
  | it :: rest, listing =>
    let mine := mapGet listing it.name
    let isDifferent :=
      match mine with
      | none => true
      | some m => m.value ≠ it.value
    if isDifferent && it.cacheable then
      let ttlUsed := match it.ttl with | some t => t | none => defaultTtl
      let sent := cacheTransform it ttlUsed concatD concatP envPath
      let out := cacheItemsLoop defaultTtl concatD concatP envPath rest
        (mapInsert listing sent.name sent)
      (out.1, sent :: out.2)
    else
      cacheItemsLoop defaultTtl concatD concatP envPath rest listing

/-- `DynamoCacher.cache_items` item selection: the final listing state and
the batch of items sent to the table. -/
def cacheItems (items : List Item) (listing : ItemMap) (defaultTtl : Int)
    (concatD concatP envPath : String) : ItemMap × List Item :=
  cacheItemsLoop defaultTtl concatD concatP envPath items listing

/-! ## SSM parameter-store provider (`xcon/providers/ssm_param_store.py`) -/

/-- The state of an `SsmParamStoreProvider` instance together with its slice
of the `InternalLocalProviderCache`: the per-directory listings live in the
internal local cache (keyed by directory path) and are wiped by a cache
reset; the errored-directory set lives on the provider instance and
survives resets. -/
structure SsmState where
  localCache : List (String × ItemMap)
  erroredDirs : List String
deriving DecidableEq, Repr

/-- What the remote parameter-store returns for one listing call: a page of
name-value pairs, an error swallowed by `handle_aws_exception`, or an error
it re-raises. -/
inductive SsmRemote where
  | ok (params : List (String × String))
  | recoverableError
  | fatalError
deriving DecidableEq, Repr

/-- The outcome of one `SsmParamStoreProvider._item_only_for_directory`
call: the new state, the item found, whether the remote service was
contacted, and whether an exception propagated out. -/
structure SsmCallResult where
  state : SsmState
  result : Option Item
  contactedRemote : Bool
  raised : Bool
deriving Repr

/-- Lookup of a directory listing in the provider's local cache. -/
def ssmCacheGet (st : SsmState) (dirPath : String) : Option ItemMap :=
  (st.localCache.find? (fun kv => kv.1 = dirPath)).map Prod.snd

/-- `SsmParamStoreProvider._item_only_for_directory`: answer from the cached
listing when one exists (a listing object is always truthy, even empty);
otherwise contact the remote service once, turn a recoverable error into an
empty listing while marking the directory errored, store the listing, and
answer from it.  A fatal error propagates before anything is stored. -/
def ssmItemOnlyForDirectory (st : SsmState) (remote : SsmRemote)
    (name : String) (d : PyDirectory) : SsmCallResult :=
  match ssmCacheGet st d.path with
  | some listing => ⟨st, mapGet listing (pyLower name), false, false⟩
  | none =>
    match remote with
    | .fatalError => ⟨st, none, true, true⟩
    | .recoverableError =>
      let listing : ItemMap := []
      let st1 : SsmState :=
        ⟨st.localCache ++ [(d.path, listing)], st.erroredDirs ++ [d.path]⟩
      ⟨st1, mapGet listing (pyLower name), true, false⟩
    | .ok params =>
      let items := params.map (fun kv =>
        mkItem (some (d.path, d.isNonExistent))
          (((pySplitSlash kv.1).getLast?).getD "") (some kv.2) "ssm")
      let listing : ItemMap := items.foldl (fun m it => mapInsert m it.name it) []
      let st1 : SsmState := ⟨st.localCache ++ [(d.path, listing)], st.erroredDirs⟩
      ⟨st1, mapGet listing (pyLower name), true, false⟩

/-- `InternalLocalProviderCache.reset_cache` as it affects one provider: the
listing cache is dropped; the errored-directory set, which lives on the
provider instance itself, survives. -/
def ssmResetCache (st : SsmState) : SsmState :=
  ⟨[], st.erroredDirs⟩

/-! ## Config-level resolution (`xcon/config.py`, `xcon/conf.py`) -/

/-- The cacher and environ selection of `Config._get_item` (config.py):
start with no cacher; when the service is falsy or differs from global,
apply the configured cacher resolution; the cacher is used only when one was
resolved and the chain has cachable providers, and only then is the environ
directory built from the service and environment; otherwise both are null.
The third component records whether the cacher resolution was invoked. -/
def getItemCacherSelection (service environment : String)
    (resolvedCacher : Option Nat) (haveCachable : Bool) :
    Option Nat × Option String × Bool :=
  let applied := service = "" || service ≠ "global"
  let cacher := if applied then resolvedCacher else none
  let useCacher := cacher.isSome && haveCachable
  if useCacher then
    (cacher, some (pathFromComponents (some service) (some environment) false), applied)
  else
    (none, none, applied)

/-- The default directory templates of `XconSettings.directories` (conf.py),
as directory objects. -/
def defaultDirectories : List PyDirectory :=
  [mkDirectoryRaw (some "/{service}/{environment}") none none false none,
   mkDirectoryRaw (some "/{service}/all") none none false none,
   mkDirectoryRaw (some "/global/{environment}") none none false none,
   mkDirectoryRaw (some "/global/all") none none false none]

/-- Ordered-set insertion semantics of a Python dict keyed by directories:
keep the first occurrence of each directory under the dataclass equality,
threading the directories already seen. -/
def orderedDedupDirsAux (seen : List PyDirectory) :
    List PyDirectory → List PyDirectory
  | [] => []
  | d :: ds =>
    if seen.any (fun x => dirEqB x d) then orderedDedupDirsAux seen ds
    else d :: orderedDedupDirsAux (d :: seen) ds

/-- Ordered-set collection of a directory list. -/
def orderedDedupDirs (l : List PyDirectory) : List PyDirectory :=
  orderedDedupDirsAux [] l

/-- `Config._standard_directories`: resolve each default directory against
the effective service and environment, collected into an ordered set. -/
def standardDirectories (service environment : String) : List PyDirectory :=
  orderedDedupDirs (defaultDirectories.map (fun d => resolveDir d service environment))

/-- The paths of the standard directory chain. -/
def standardDirectoryPaths (service environment : String) : List String :=
  (standardDirectories service environment).map (fun d => d.path)

/-- The directory appended per configured export service in
`Config._resolve_directories_with_cursor`: built from the export service as
the service, the effective environment, and the export flag. -/
def exportDirectory (exportService environment : String) : PyDirectory :=
  mkDirectoryRaw none (some exportService) (some environment) true none

/-- The tail of `Config._resolve_directories_with_cursor` once the configured
directories and exports are resolved: append one export directory per export
service to the ordered set, then resolve every directory against the
effective service and environment, again into an ordered set. -/
def resolveDirectoriesWithExports (base : List PyDirectory)
    (exports : List String) (service environment : String) : List PyDirectory :=
  let withExports :=
    orderedDedupDirs (base ++ exports.map (fun x => exportDirectory x environment))
  orderedDedupDirs (withExports.map (fun d => resolveDir d service environment))

/-! ## Concrete fixtures used by witnesses and counterexamples -/

/-- The directory with path slash-s slash-e. -/
def sampleDirA : PyDirectory := mkDirectoryRaw (some "/s/e") none none false none

/-- The directory with path slash-s slash-all. -/
def sampleDirB : PyDirectory := mkDirectoryRaw (some "/s/all") none none false none

/-- A cached miss: an item whose directory is the non-existent sentinel, as
the cacher returns for a name recorded as absent. -/
def sampleItemNonExistent : Item := mkItem (some ("/_nonExistent", true)) "x" none "cacher"

/-- A normal found item. -/
def sampleItemNormal : Item := mkItem (some ("/s/e", false)) "x" (some "v") "ssm"

/-- A provider that answers every lookup with the cached-as-non-existent item. -/
def providerFindsNonExistent : ProviderModel :=
  ⟨"cacher", false, fun _ _ => some sampleItemNonExistent, fun _ => some [], fun _ => false⟩

/-- A provider that answers every lookup with a normal item. -/
def providerFindsNormal : ProviderModel :=
  ⟨"ssm", false, fun _ _ => some sampleItemNormal,
    fun _ => some [("x", sampleItemNormal)], fun _ => false⟩

/-- A provider that never finds anything. -/
def providerFindsNothing : ProviderModel :=
  ⟨"sec", false, fun _ _ => none, fun _ => some [], fun _ => false⟩

/-- A provider that finds a normal item only in the second sample directory. -/
def providerFindsOnB : ProviderModel :=
  ⟨"ssm", false,
    fun _ d => if d.path = "/s/all" then some sampleItemNormal else none,
    fun _ => some [], fun _ => false⟩

/-! ## General lemmas on the string and path helpers -/

lemma dataNeNil (s : String) (h : s ≠ "") : s.data ≠ [] := by
  intro hd; exact h (String.ext hd)

lemma splitSlashChars_noSlash (l : List Char) (h : '/' ∉ l) :
    splitSlashChars l = [l] := by
  induction l with
  | nil => rfl
  | cons c cs ih =>
    have hc : c ≠ '/' := fun hh => h (hh ▸ List.mem_cons_self c cs)
    have hcs : '/' ∉ cs := fun hh => h (List.mem_cons_of_mem c hh)
    simp [splitSlashChars, hc, ih hcs]

lemma splitSlashChars_append (a b : List Char) (ha : '/' ∉ a) :
    splitSlashChars (a ++ '/' :: b) = a :: splitSlashChars b := by
  induction a with
  | nil => simp [splitSlashChars]
  | cons c cs ih =>
    have hc : c ≠ '/' := fun hh => ha (hh ▸ List.mem_cons_self c cs)
    have hcs : '/' ∉ cs := fun hh => ha (List.mem_cons_of_mem c hh)
    have hne : splitSlashChars (cs ++ '/' :: b) = cs :: splitSlashChars b := ih hcs
    simp [splitSlashChars, hc, hne]

lemma serviceEnvFromPath_two (s e : String) (hs : noSlash s) (he : noSlash e) :
    serviceEnvFromPath ("/" ++ s ++ "/" ++ e) = (some s, some e) := by
  have hdata : ("/" ++ s ++ "/" ++ e).data = '/' :: (s.data ++ '/' :: e.data) := by
    simp [String.data_append]
  have hsplit : splitSlashChars (("/" ++ s ++ "/" ++ e).data) = [[], s.data, e.data] := by
    rw [hdata]
    have h1 : splitSlashChars ('/' :: (s.data ++ '/' :: e.data)) =
        [] :: splitSlashChars (s.data ++ '/' :: e.data) := by simp [splitSlashChars]
    rw [h1, splitSlashChars_append s.data e.data hs, splitSlashChars_noSlash e.data he]
  unfold serviceEnvFromPath pySplitSlash
  rw [hsplit]
  simp [pyJoinSlash, joinSlashChars]

lemma pyStartsWith_slash_false (e : String) (he : noSlash e) (hene : e ≠ "") :
    pyStartsWith e "/" = false := by
  unfold pyStartsWith
  cases hd : e.data with
  | nil => exact absurd (String.ext hd) hene
  | cons c cs =>
    have hc : c ≠ '/' := by
      intro h; apply he; rw [hd, h]; exact List.mem_cons_self _ _
    simp [prefixChars, Ne.symm hc]

lemma pathFromComponents_plain (s e : String) (hsne : s ≠ "") (hene : e ≠ "")
    (hstart : pyStartsWith e "/" = false) :
    pathFromComponents (some s) (some e) false = "/" ++ s ++ "/" ++ e := by
  simp [pathFromComponents, optTruthy, hsne, hene, hstart]

lemma mkDirectoryRaw_reparse (s e : String) (hs : noSlash s) (he : noSlash e)
    (hsne : s ≠ "") (hene : e ≠ "") :
    (mkDirectoryRaw (some ("/" ++ s ++ "/" ++ e)) none none false (some false)).path =
      "/" ++ s ++ "/" ++ e := by
  unfold mkDirectoryRaw
  simp only [serviceEnvFromPath_two s e hs he]
  simp [optTruthy, hsne]
  exact pathFromComponents_plain s e hsne hene (pyStartsWith_slash_false e he hene)

lemma slashed_inj (s1 e1 s2 e2 : String) (hs1 : noSlash s1) (he1 : noSlash e1)
    (hs2 : noSlash s2) (he2 : noSlash e2)
    (h : "/" ++ s1 ++ "/" ++ e1 = "/" ++ s2 ++ "/" ++ e2) : s1 = s2 ∧ e1 = e2 := by
  have h1 := serviceEnvFromPath_two s1 e1 hs1 he1
  rw [h, serviceEnvFromPath_two s2 e2 hs2 he2] at h1
  simp at h1
  exact ⟨h1.1.symm, h1.2.symm⟩

lemma fmt_t1 (s e : String) :
    formatMap "/\x7bservice\x7d/\x7benvironment\x7d" s e = "/" ++ s ++ "/" ++ e := by
  apply String.ext
  simp [formatMap, fmtAux, braceL, braceR, String.data_append]

lemma fmt_t2 (s e : String) :
    formatMap "/\x7bservice\x7d/all" s e = "/" ++ s ++ "/all" := by
  apply String.ext
  simp [formatMap, fmtAux, braceL, braceR, String.data_append]

lemma fmt_t3 (s e : String) :
    formatMap "/global/\x7benvironment\x7d" s e = "/global/" ++ e := by
  apply String.ext
  simp [formatMap, fmtAux, braceL, braceR, String.data_append]

lemma formatted_ne_template1 (s e : String) (hb : braceL ∉ s.data) (hsne : s ≠ "") :
    ("/" ++ s ++ "/" ++ e) ≠ "/\x7bservice\x7d/\x7benvironment\x7d" := by
  intro h
  have hd := congrArg String.data h
  simp [String.data_append] at hd
  cases hs : s.data with
  | nil => exact dataNeNil s hsne hs
  | cons c cs =>
    rw [hs] at hd
    have hc : c = braceL := by
      have h2 := congrArg (fun l => l.head?) hd
      simpa [braceL] using h2
    apply hb; rw [hs, hc]; exact List.mem_cons_self _ _

lemma formatted_ne_template2 (s : String) (hb : braceL ∉ s.data) (hsne : s ≠ "") :
    ("/" ++ s ++ "/all") ≠ "/\x7bservice\x7d/all" := by
  intro h
  have hd := congrArg String.data h
  simp [String.data_append] at hd
  cases hs : s.data with
  | nil => exact dataNeNil s hsne hs
  | cons c cs =>
    rw [hs] at hd
    have hc : c = braceL := by
      have h2 := congrArg (fun l => l.head?) hd
      simpa [braceL] using h2
    apply hb; rw [hs, hc]; exact List.mem_cons_self _ _

lemma formatted_ne_template3 (e : String) (hb : braceL ∉ e.data) (hene : e ≠ "") :
    ("/global/" ++ e) ≠ "/global/\x7benvironment\x7d" := by
  intro h
  have hd := congrArg String.data h
  simp [String.data_append] at hd
  cases hs : e.data with
  | nil => exact dataNeNil e hene hs
  | cons c cs =>
    rw [hs] at hd
    have hc : c = braceL := by
      have h2 := congrArg (fun l => l.head?) hd
      simpa [braceL] using h2
    apply hb; rw [hs, hc]; exact List.mem_cons_self _ _

lemma resolve_t1 (s e : String) (hs : noSlash s) (he : noSlash e)
    (hbs : braceL ∉ s.data) (hsne : s ≠ "") (hene : e ≠ "") :
    (resolveDir
      (mkDirectoryRaw (some "/\x7bservice\x7d/\x7benvironment\x7d") none none false none)
      s e).path = "/" ++ s ++ "/" ++ e := by
  have ht : mkDirectoryRaw (some "/\x7bservice\x7d/\x7benvironment\x7d") none none false none =
      ⟨"/\x7bservice\x7d/\x7benvironment\x7d", "\x7bservice\x7d", some "\x7benvironment\x7d",
        false, true, false⟩ := by decide
  rw [ht]
  unfold resolveDir
  simp only [fmt_t1 s e]
  simp [formatted_ne_template1 s e hbs hsne]
  exact mkDirectoryRaw_reparse s e hs he hsne hene

lemma reparse_s_all (s : String) (hs : noSlash s) (hsne : s ≠ "") :
    (mkDirectoryRaw (some ("/" ++ s ++ "/all")) none none false (some false)).path =
      "/" ++ s ++ "/all" := by
  have hconv : "/" ++ s ++ "/all" = "/" ++ s ++ "/" ++ "all" := by
    apply String.ext; simp [String.data_append]
  rw [hconv]
  exact mkDirectoryRaw_reparse s "all" hs (by decide) hsne (by decide)

lemma resolve_t2 (s e : String) (hs : noSlash s)
    (hbs : braceL ∉ s.data) (hsne : s ≠ "") :
    (resolveDir (mkDirectoryRaw (some "/\x7bservice\x7d/all") none none false none)
      s e).path = "/" ++ s ++ "/all" := by
  have ht : mkDirectoryRaw (some "/\x7bservice\x7d/all") none none false none =
      ⟨"/\x7bservice\x7d/all", "\x7bservice\x7d", some "all", false, true, false⟩ := by decide
  rw [ht]
  unfold resolveDir
  simp only [fmt_t2 s e]
  simp [formatted_ne_template2 s hbs hsne]
  exact reparse_s_all s hs hsne

lemma reparse_global_e (e : String) (he : noSlash e) (hene : e ≠ "") :
    (mkDirectoryRaw (some ("/global/" ++ e)) none none false (some false)).path =
      "/global/" ++ e := by
  have hconv : "/global/" ++ e = "/" ++ "global" ++ "/" ++ e := by
    apply String.ext; simp [String.data_append]
  rw [hconv]
  exact mkDirectoryRaw_reparse "global" e (by decide) he (by decide) hene

lemma resolve_t3 (s e : String) (he : noSlash e)
    (hbe : braceL ∉ e.data) (hene : e ≠ "") :
    (resolveDir (mkDirectoryRaw (some "/global/\x7benvironment\x7d") none none false none)
      s e).path = "/global/" ++ e := by
  have ht : mkDirectoryRaw (some "/global/\x7benvironment\x7d") none none false none =
      ⟨"/global/\x7benvironment\x7d", "global", some "\x7benvironment\x7d",
        false, true, false⟩ := by decide
  rw [ht]
  unfold resolveDir
  simp only [fmt_t3 s e]
  simp [formatted_ne_template3 e hbe hene]
  exact reparse_global_e e he hene

lemma resolve_t4 (s e : String) :
    resolveDir (mkDirectoryRaw (some "/global/all") none none false none) s e =
      mkDirectoryRaw (some "/global/all") none none false none := by
  have ht : mkDirectoryRaw (some "/global/all") none none false none =
      ⟨"/global/all", "global", some "all", false, false, false⟩ := by decide
  rw [ht]
  rfl

lemma orderedDedup_four (a b c d : PyDirectory)
    (h12 : a.path ≠ b.path) (h13 : a.path ≠ c.path) (h14 : a.path ≠ d.path)
    (h23 : b.path ≠ c.path) (h24 : b.path ≠ d.path) (h34 : c.path ≠ d.path) :
    orderedDedupDirs [a, b, c, d] = [a, b, c, d] := by
  simp [orderedDedupDirs, orderedDedupDirsAux, dirEqB, h12, h13, h14, h23, h24, h34]

lemma conv_s_all (s : String) : "/" ++ s ++ "/all" = "/" ++ s ++ "/" ++ "all" := by
  apply String.ext; simp [String.data_append]

lemma conv_global_e (e : String) : "/global/" ++ e = "/" ++ "global" ++ "/" ++ e := by
  apply String.ext; simp [String.data_append]

lemma conv_global_all : "/global/all" = "/" ++ "global" ++ "/" ++ "all" := by decide

lemma pathFromComponents_export (S E : String) (hS : S ≠ "") (hE : E ≠ "")
    (h1 : pyStartsWith E "/" = false) (h2 : pyStartsWith E "export/" = false) :
    pathFromComponents (some S) (some E) true = "/" ++ S ++ "/export/" ++ E := by
  have hne : ("export/" ++ E) ≠ "" := by
    intro h
    have hd := congrArg String.data h
    simp [String.data_append] at hd
  simp [pathFromComponents, optTruthy, hS, hE, h1, h2, hne]
  apply String.ext; simp [String.data_append]

lemma mkDirectoryRaw_components_path (S E : String) (isExport : Bool) :
    (mkDirectoryRaw none (some S) (some E) isExport none).path =
      pathFromComponents (some (if optTruthy (some S) then S else "global"))
        (some E) isExport := by
  by_cases h : optTruthy (some S) <;> simp [mkDirectoryRaw, h]

lemma mkDirectoryRaw_auto_ipf (pa sa ea : Option String) (ex : Bool) :
    (mkDirectoryRaw pa sa ea ex none).isPathFormat =
      !(formatKeys ((mkDirectoryRaw pa sa ea ex none).path)).isEmpty := rfl

lemma find_append_right {α : Type} (p : α → Bool) (l1 l2 : List α)
    (h : l1.find? p = none) : (l1 ++ l2).find? p = l2.find? p := by
  induction l1 with
  | nil => rfl
  | cons a rest ih =>
    cases hp : p a with
    | true => simp [List.find?_cons, hp] at h
    | false =>
      simp only [List.find?_cons, hp] at h
      simp only [List.cons_append, List.find?_cons, hp]
      exact ih h

/-! ## Lemmas on the provider chain -/

lemma providerKeyNames_finished (ps : List (String × Bool)) :
    providerKeyNames ps true = ps.map Prod.fst := by
  induction ps with
  | nil => rfl
  | cons p rest ih => simp [providerKeyNames, ih]

lemma providerKeyNames_dropWhile (ps : List (String × Bool)) :
    providerKeyNames ps false = (ps.dropWhile (fun p => p.2)).map Prod.fst := by
  induction ps with
  | nil => rfl
  | cons p rest ih =>
    by_cases h : p.2 <;>
      simp [providerKeyNames, List.dropWhile, h, ih, providerKeyNames_finished]

lemma providersWithCacher_go_none (ps : List ProviderModel) (b : Bool) :
    providersWithCacher.go none ps b = ps := by
  induction ps generalizing b with
  | nil => rfl
  | cons p rest ih =>
    unfold providersWithCacher.go
    by_cases h : (b || p.queryBeforeCacheIfPossible) = true <;> simp [h, ih]

lemma providersWithCacher_none (ps : List ProviderModel) :
    providersWithCacher ps none = ps := providersWithCacher_go_none ps false

lemma chainLoop_false (providers : List ProviderModel) (cacher : Option ProviderModel)
    (name : String) (dirs : List PyDirectory) (itemsCache : ItemMap)
    (places : List String) :
    (chainLoop providers cacher name dirs false itemsCache places).2.1 = false ∧
    (chainLoop providers cacher name dirs false itemsCache places).2.2.1 = itemsCache := by
  induction dirs generalizing places with
  | nil => exact ⟨rfl, rfl⟩
  | cons d ds ih =>
    unfold chainLoop
    cases h : (innerScan name d (providersWithCacher providers cacher)).1 with
    | some i => simp [h]
    | none => simpa [h] using ih (places ++ (innerScan name d (providersWithCacher providers cacher)).2)

lemma chainGetItem_none_write (ps : List ProviderModel) (name : String)
    (dirs : List PyDirectory) :
    (chainGetItem ps none none name dirs).cacheWrite = none := by
  unfold chainGetItem
  have h := chainLoop_false ps none name dirs [] []
  simp [h.1]

lemma innerScan_break (name : String) (d : PyDirectory)
    (ps1 : List ProviderModel) (p : ProviderModel) (ps2 : List ProviderModel)
    (it : Item) (h1 : ∀ q ∈ ps1, q.getItem name d = none)
    (hp : p.getItem name d = some it) :
    innerScan name d (ps1 ++ p :: ps2) =
      (some it, ps1.map (fun q => placeString q d none) ++ [placeString p d (some it)]) := by
  induction ps1 with
  | nil => simp [innerScan, hp]
  | cons q rest ih =>
    have hq : q.getItem name d = none := h1 q (List.mem_cons_self q rest)
    have hrest : ∀ r ∈ rest, r.getItem name d = none :=
      fun r hr => h1 r (List.mem_cons_of_mem q hr)
    simp [innerScan, hq, ih hrest]

lemma chainLoop_break (providers : List ProviderModel) (cacher : Option ProviderModel)
    (name : String) (ds1 : List PyDirectory) (d : PyDirectory)
    (ds2 : List PyDirectory) (it : Item)
    (h1 : ∀ x ∈ ds1, (innerScan name x (providersWithCacher providers cacher)).1 = none)
    (hd : (innerScan name d (providersWithCacher providers cacher)).1 = some it) :
    ∀ u cache places, ∃ u2 c2,
      chainLoop providers cacher name (ds1 ++ d :: ds2) u cache places =
        (some it, u2, c2, places ++ (ds1 ++ [d]).flatMap
          (fun x => (innerScan name x (providersWithCacher providers cacher)).2)) := by
  induction ds1 with
  | nil =>
    intro u cache places
    refine ⟨?_, ?_, ?_⟩
    case _ => exact (if u && !it.cacheable then false else u)
    case _ =>
      exact (if (if u && !it.cacheable then false else u) then
        mapMerge (chainRetrievedItemsMap providers d) cache else cache)
    unfold chainLoop
    simp [hd]
  | cons x rest ih =>
    intro u cache places
    have hx : (innerScan name x (providersWithCacher providers cacher)).1 = none :=
      h1 x (List.mem_cons_self x rest)
    have hrest : ∀ y ∈ rest, (innerScan name y (providersWithCacher providers cacher)).1 = none :=
      fun y hy => h1 y (List.mem_cons_of_mem x hy)
    obtain ⟨u2, c2, hout⟩ := ih hrest u
      (if u then mapMerge (chainRetrievedItemsMap providers x) cache else cache)
      (places ++ (innerScan name x (providersWithCacher providers cacher)).2)
    refine ⟨u2, c2, ?_⟩
    show chainLoop providers cacher name ((x :: rest) ++ d :: ds2) u cache places = _
    rw [List.cons_append]
    simp only [chainLoop]
    simp only [hx]
    rw [hout]
    simp [List.flatMap_cons, List.append_assoc]

lemma chainGetItem_proj (providers : List ProviderModel) (cacher : Option ProviderModel)
    (environ : Option PyDirectory) (name : String) (dirs : List PyDirectory) :
    (chainGetItem providers cacher environ name dirs).item =
      ((chainLoop providers cacher name dirs
          (cacher.isSome && environ.isSome) [] []).1.getD
        (mkItem none name none "/_nonExistent")) ∧
    (chainGetItem providers cacher environ name dirs).placesChecked =
      (chainLoop providers cacher name dirs (cacher.isSome && environ.isSome) [] []).2.2.2 := by
  unfold chainGetItem
  dsimp only
  split <;> exact ⟨rfl, rfl⟩

lemma chainGetItem_write_cacheable (providers : List ProviderModel)
    (cacher : Option ProviderModel) (environ : Option PyDirectory) (name : String)
    (dirs : List PyDirectory) (ws : List Item)
    (h : (chainGetItem providers cacher environ name dirs).cacheWrite = some ws) :
    (chainGetItem providers cacher environ name dirs).item.cacheable = true := by
  revert h
  unfold chainGetItem
  dsimp only
  split
  case _ hcond =>
    intro _
    simp only [Bool.and_eq_true] at hcond
    simp [hcond.2]
  case _ =>
    intro h
    simp at h

lemma cacheItemsLoop_sent (defaultTtl : Int) (cd cp ep : String) (items : List Item) :
    ∀ listing sent, sent ∈ (cacheItemsLoop defaultTtl cd cp ep items listing).2 →
      ∃ src ∈ items, src.cacheable = true ∧ sent.name = pyLower src.name ∧
        sent.value = src.value := by
  induction items with
  | nil => intro listing sent h; simp [cacheItemsLoop] at h
  | cons it rest ih =>
    intro listing sent h
    unfold cacheItemsLoop at h
    by_cases hc : ((match mapGet listing it.name with
        | none => true
        | some m => decide ¬m.value = it.value) && it.cacheable) = true
    · rw [if_pos hc] at h
      simp only [List.mem_cons] at h
      rcases h with h | h
      · refine ⟨it, List.mem_cons_self it rest, ?_, ?_, ?_⟩
        · exact (Bool.and_eq_true ..).mp hc |>.2
        · rw [h]; rfl
        · rw [h]; rfl
      · obtain ⟨src, hsrc, hrest⟩ := ih _ sent h
        exact ⟨src, List.mem_cons_of_mem it hsrc, hrest⟩
    · rw [if_neg hc] at h
      obtain ⟨src, hsrc, hrest⟩ := ih _ sent h
      exact ⟨src, List.mem_cons_of_mem it hsrc, hrest⟩

/-! ## Claim C1 -/

/-- C1 counterexample: with a provider that answers with a
cached-as-non-existent item ahead of one that would answer with a normal
item, and two directories to walk, the non-existent result is returned, only
one provider visit is recorded, and the second directory is never visited —
so a found(non-existent) result does break out of both loops, contrary to the
claim that only found(normal) does. -/
theorem xcon_c1_counterexample :
    (chainGetItem [providerFindsNonExistent, providerFindsNormal] none none "x"
        [sampleDirA, sampleDirB]).item = sampleItemNonExistent ∧
    sampleItemNonExistent.dirIsNonExistent = true ∧
    (chainGetItem [providerFindsNonExistent, providerFindsNormal] none none "x"
        [sampleDirA, sampleDirB]).placesChecked =
      ["cacher:/s/e | result=found(cached-as-non-existent)"] := by decide

/-- C1 (amended): in `ProviderChain.get_item`, a visit that returns an item —
found(normal) or found(non-existent) alike — breaks out of the provider loop
and the directory loop, while error and not-found visits let the traversal
continue: providers before the first hit are all visited, the hit ends the
inner loop, and directories after the first directory with a hit are never
visited. -/
theorem xcon_c1_claim
    (providers : List ProviderModel) (cacher : Option ProviderModel)
    (environ : Option PyDirectory) (name : String)
    (ps1 : List ProviderModel) (p : ProviderModel) (ps2 : List ProviderModel)
    (d : PyDirectory) (it : Item) (ds1 ds2 : List PyDirectory)
    (hps1 : ∀ q ∈ ps1, q.getItem name d = none)
    (hp : p.getItem name d = some it)
    (hds1 : ∀ x ∈ ds1, (innerScan name x (providersWithCacher providers cacher)).1 = none)
    (hd : (innerScan name d (providersWithCacher providers cacher)).1 = some it) :
    innerScan name d (ps1 ++ p :: ps2) =
      (some it, ps1.map (fun q => placeString q d none) ++ [placeString p d (some it)]) ∧
    (chainGetItem providers cacher environ name (ds1 ++ d :: ds2)).item = it ∧
    (chainGetItem providers cacher environ name (ds1 ++ d :: ds2)).placesChecked =
      (ds1 ++ [d]).flatMap
        (fun x => (innerScan name x (providersWithCacher providers cacher)).2) := by
  obtain ⟨u2, c2, hout⟩ := chainLoop_break providers cacher name ds1 d ds2 it hds1 hd
    (cacher.isSome && environ.isSome) [] []
  have hproj := chainGetItem_proj providers cacher environ name (ds1 ++ d :: ds2)
  refine ⟨innerScan_break name d ps1 p ps2 it hps1 hp, ?_, ?_⟩
  · rw [hproj.1, hout]; rfl
  · rw [hproj.2, hout]; simp

/-- C1 witness: a provider that misses in the first directory and hits in the
second; the chain returns that second-directory item. -/
theorem xcon_c1_witness :
    (chainGetItem [providerFindsOnB] none none "x" [sampleDirA, sampleDirB]).item =
      sampleItemNormal :=
  (xcon_c1_claim [providerFindsOnB] none none "x" [providerFindsNothing]
    providerFindsNormal [] sampleDirB sampleItemNormal [sampleDirA] []
    (by decide) (by decide) (by decide) (by decide)).2.1

/-! ## Claim C2 -/

/-- C2 counterexample: for export service other and environment prod the
appended export directory's path is slash-other slash-export slash-prod, not
slash-other slash-prod slash-export as the claim states. -/
theorem xcon_c2_counterexample :
    (exportDirectory "other" "prod").path = "/other/export/prod" ∧
    (exportDirectory "other" "prod").path ≠ "/other/prod/export" := by decide

/-- C2 (amended): for every configured export service S and effective
environment E (nonempty, not starting with a slash or an export segment), the
directory appended to the resolved chain has the path slash-S slash-export
slash-E; and with defaults plus exports other under service svc and
environment prod, the resolved chain puts slash-other slash-export slash-prod
after the four normal directories. -/
theorem xcon_c2_claim :
    (∀ S E : String, S ≠ "" → E ≠ "" → pyStartsWith E "/" = false →
      pyStartsWith E "export/" = false →
      (exportDirectory S E).path = "/" ++ S ++ "/export/" ++ E) ∧
    ((resolveDirectoriesWithExports defaultDirectories ["other"] "svc" "prod").map
        (fun d => d.path) =
      ["/svc/prod", "/svc/all", "/global/prod", "/global/all", "/other/export/prod"]) := by
  constructor
  · intro S E hS hE h1 h2
    unfold exportDirectory
    rw [mkDirectoryRaw_components_path]
    simp [optTruthy, hS]
    exact pathFromComponents_export S E hS hE h1 h2
  · decide

/-- C2 witness: the export path shape at the concrete scenario inputs. -/
theorem xcon_c2_witness :
    (exportDirectory "other" "prod").path = "/" ++ "other" ++ "/export/" ++ "prod" :=
  xcon_c2_claim.1 "other" "prod" (by decide) (by decide) (by decide) (by decide)

/-! ## Claim C3 -/

/-- C3 counterexample: with service svc and environment prod the default
resolved chain is slash-svc slash-prod, slash-svc slash-all, slash-global
slash-prod, slash-global slash-all — the second and fourth entries are not
the claimed slash-svc and slash-global. -/
theorem xcon_c3_counterexample :
    standardDirectoryPaths "svc" "prod" =
      ["/svc/prod", "/svc/all", "/global/prod", "/global/all"] ∧
    standardDirectoryPaths "svc" "prod" ≠
      ["/svc/prod", "/svc", "/global/prod", "/global"] := by decide

/-- C3 (amended): when nothing is inherited, the resolved chain is exactly
the four templated directories of the settings default — service slash
environment, service slash all, global slash environment, global slash all —
in that order, templated with the effective service and environment (here
assumed slash-free, brace-free, nonempty, and avoiding the degenerate global
and all values that would make entries coincide and dedup). -/
theorem xcon_c3_claim (s e : String)
    (hs : noSlash s) (he : noSlash e) (hbs : noBrace s) (hbe : noBrace e)
    (hsne : s ≠ "") (hene : e ≠ "") (hsg : s ≠ "global") (hea : e ≠ "all") :
    standardDirectoryPaths s e =
      ["/" ++ s ++ "/" ++ e, "/" ++ s ++ "/all", "/global/" ++ e, "/global/all"] := by
  have hall : noSlash "all" := by decide
  have hglob : noSlash "global" := by decide
  have hp1 := resolve_t1 s e hs he hbs.1 hsne hene
  have hp2 := resolve_t2 s e hs hbs.1 hsne
  have hp3 := resolve_t3 s e he hbe.1 hene
  have hp4 := resolve_t4 s e
  set r1 := resolveDir
    (mkDirectoryRaw (some "/\x7bservice\x7d/\x7benvironment\x7d") none none false none) s e
  set r2 := resolveDir (mkDirectoryRaw (some "/\x7bservice\x7d/all") none none false none) s e
  set r3 := resolveDir
    (mkDirectoryRaw (some "/global/\x7benvironment\x7d") none none false none) s e
  set r4 := resolveDir (mkDirectoryRaw (some "/global/all") none none false none) s e
  have hp4p : r4.path = "/global/all" := by rw [hp4]; decide
  have h12 : r1.path ≠ r2.path := by
    rw [hp1, hp2, conv_s_all]
    intro h
    exact hea (slashed_inj s e s "all" hs he hs hall h).2
  have h13 : r1.path ≠ r3.path := by
    rw [hp1, hp3, conv_global_e]
    intro h
    exact hsg (slashed_inj s e "global" e hs he hglob he h).1
  have h14 : r1.path ≠ r4.path := by
    rw [hp1, hp4p, conv_global_all]
    intro h
    exact hsg (slashed_inj s e "global" "all" hs he hglob hall h).1
  have h23 : r2.path ≠ r3.path := by
    rw [hp2, hp3, conv_s_all, conv_global_e]
    intro h
    exact hsg (slashed_inj s "all" "global" e hs hall hglob he h).1
  have h24 : r2.path ≠ r4.path := by
    rw [hp2, hp4p, conv_s_all, conv_global_all]
    intro h
    exact hsg (slashed_inj s "all" "global" "all" hs hall hglob hall h).1
  have h34 : r3.path ≠ r4.path := by
    rw [hp3, hp4p, conv_global_e, conv_global_all]
    intro h
    exact hea (slashed_inj "global" e "global" "all" hglob he hglob hall h).2
  have hmap : defaultDirectories.map (fun d => resolveDir d s e) = [r1, r2, r3, r4] := by
    simp [defaultDirectories, r1, r2, r3, r4]
  unfold standardDirectoryPaths standardDirectories
  rw [hmap, orderedDedup_four r1 r2 r3 r4 h12 h13 h14 h23 h24 h34]
  simp [hp1, hp2, hp3, hp4p]

/-- C3 witness: the amended default chain at service svc, environment prod. -/
theorem xcon_c3_witness :
    standardDirectoryPaths "svc" "prod" =
      ["/" ++ "svc" ++ "/" ++ "prod", "/" ++ "svc" ++ "/all",
       "/global/" ++ "prod", "/global/all"] :=
  xcon_c3_claim "svc" "prod" (by decide) (by decide) (by decide) (by decide)
    (by decide) (by decide) (by decide) (by decide)

/-! ## Claim C4 -/

/-- C4: the handler re-raises a client error whose code is the expired-token
or the unrecognized-client code, because the source's ignore set — missing a
comma — contains the concatenation of the two strings instead of the two
codes, while a code such as access-denied is swallowed as intended. -/
theorem xcon_c4_claim :
    handleAwsException (.clientError (some "ExpiredTokenException") true) = .reraised ∧
    handleAwsException (.clientError (some "UnrecognizedClientException") true) = .reraised ∧
    "ExpiredTokenException" ∉ awsErrorCodesToIgnore ∧
    "UnrecognizedClientException" ∉ awsErrorCodesToIgnore ∧
    "UnrecognizedClientExceptionExpiredTokenException" ∈ awsErrorCodesToIgnore ∧
    handleAwsException (.clientError (some "AccessDeniedException") true) =
      .ignoredCode "AccessDeniedException" ∧
    handleAwsException .noCredentialsError = .ignoredClass := by decide

/-! ## Claim C5 -/

/-- C5: the concatenated provider names are the pipe-join of the names past
the leading run of query-before-cache providers (later ones with the flag are
kept, in chain order), and both chain fingerprints are deterministic
functions of the underlying sequences. -/
theorem xcon_c5_claim :
    (∀ ps : List (String × Bool),
        concatenatedProviderNames ps =
          String.intercalate "|" ((ps.dropWhile (fun p => p.2)).map (fun p => p.1))) ∧
    (∀ ps qs : List (String × Bool), ps = qs →
        concatenatedProviderNames ps = concatenatedProviderNames qs) ∧
    (∀ ds es : List PyDirectory, ds = es →
        concatenatedDirectoryPaths ds = concatenatedDirectoryPaths es) := by
  refine ⟨fun ps => ?_, fun ps qs h => by rw [h], fun ds es h => by rw [h]⟩
  unfold concatenatedProviderNames
  rw [providerKeyNames_dropWhile]

/-- C5 witness: equal sequences yield equal fingerprints at a concrete
chain. -/
theorem xcon_c5_witness :
    concatenatedProviderNames [("env", true), ("ssm", false), ("env2", true)] =
      concatenatedProviderNames [("env", true), ("ssm", false), ("env2", true)] :=
  xcon_c5_claim.2.1 _ _ rfl

/-! ## Claim C6 -/

/-- C6 counterexample: a row of the environ partition whose ttl is one
hundred seconds in the future is excluded by the cacher read when the random
jitter is an hour, though the claim says every future-ttl row is included. -/
theorem xcon_c6_counterexample :
    getItemsForEnviron [⟨"/s/e", some 1100, 0⟩] "/s/e" 1000 3600 = [] ∧
    claimedCacherReadSet [⟨"/s/e", some 1100, 0⟩] "/s/e" 1000 =
      [⟨"/s/e", some 1100, 0⟩] ∧
    (0 : Int) ≤ 3600 ∧ (3600 : Int) ≤ 7200 ∧ (1000 : Int) < 1100 := by decide

/-- C6 (amended): a cacher read considers exactly the rows of the environ
partition without a ttl or with a ttl strictly greater than now plus the
random jitter of up to two hours picked for the fetch; rows with a past ttl
are always excluded, rows without a ttl always included. -/
theorem xcon_c6_claim (rows : List CacheRow) (environPath : String)
    (now jitter : Int) (r : CacheRow) :
    r ∈ getItemsForEnviron rows environPath now jitter ↔
      r ∈ rows ∧ r.appKey = environPath ∧
        (r.ttl = none ∨ ∃ t, r.ttl = some t ∧ now + jitter < t) := by
  unfold getItemsForEnviron getItemsForDirectory
  rw [List.mem_filter]
  cases h : r.ttl <;> simp [h, and_assoc]

/-! ## Claim C7 -/

/-- C7: environment snapshot items are created non-cacheable; a chain lookup
that hands items to the cacher has returned a cacheable item (so a
non-cacheable find means no write at all); once the use-cacher flag is off
the loop collects nothing further; and every item the cacher sends stems from
a cacheable input item with the same value. -/
theorem xcon_c7_claim :
    (∀ (pairs : List (String × String)) (it : Item),
        it ∈ envSnapshotItems pairs → it.cacheable = false) ∧
    (∀ (providers : List ProviderModel) (cacher : Option ProviderModel)
        (environ : Option PyDirectory) (name : String) (dirs : List PyDirectory)
        (ws : List Item),
        (chainGetItem providers cacher environ name dirs).cacheWrite = some ws →
        (chainGetItem providers cacher environ name dirs).item.cacheable = true) ∧
    (∀ (providers : List ProviderModel) (cacher : Option ProviderModel)
        (name : String) (dirs : List PyDirectory) (itemsCache : ItemMap)
        (places : List String),
        (chainLoop providers cacher name dirs false itemsCache places).2.1 = false ∧
        (chainLoop providers cacher name dirs false itemsCache places).2.2.1 = itemsCache) ∧
    (∀ (items : List Item) (listing : ItemMap) (defaultTtl : Int)
        (cd cp ep : String) (sent : Item),
        sent ∈ (cacheItems items listing defaultTtl cd cp ep).2 →
        ∃ src ∈ items, src.cacheable = true ∧ sent.name = pyLower src.name ∧
          sent.value = src.value) := by
  refine ⟨?_, ?_, ?_, ?_⟩
  · intro pairs it h
    obtain ⟨kv, _, rfl⟩ := List.mem_map.mp h
    rfl
  · intro providers cacher environ name dirs ws h
    exact chainGetItem_write_cacheable providers cacher environ name dirs ws h
  · intro providers cacher name dirs itemsCache places
    exact chainLoop_false providers cacher name dirs itemsCache places
  · intro items listing defaultTtl cd cp ep sent h
    exact cacheItemsLoop_sent defaultTtl cd cp ep items listing sent h

/-- C7 witness: the three mechanisms at concrete inputs. -/
theorem xcon_c7_witness :
    (mkItem (some ("/_environmental", false)) "K" (some "v") "env" false).cacheable =
      false ∧
    (chainGetItem [providerFindsNormal] (some providerFindsNothing) (some sampleDirA)
      "x" [sampleDirA]).item.cacheable = true ∧
    (∃ src ∈ [sampleItemNormal], src.cacheable = true ∧
      (cacheTransform sampleItemNormal 99 "cd" "cp" "/s/e").name = pyLower src.name ∧
      (cacheTransform sampleItemNormal 99 "cd" "cp" "/s/e").value = src.value) :=
  ⟨xcon_c7_claim.1 [("K", "v")] _ (by decide),
   xcon_c7_claim.2.1 [providerFindsNormal] (some providerFindsNothing)
     (some sampleDirA) "x" [sampleDirA] [sampleItemNormal] (by decide),
   xcon_c7_claim.2.2.2 [sampleItemNormal] [] 99 "cd" "cp" "/s/e" _ (by decide)⟩

/-! ## Claim C8 -/

/-- C8 counterexample: two directories built from the same template path, one
with the path-format flag auto-discovered (true) and one with it forced
false, have equal paths and equal hash inputs yet compare unequal — so
equality is not on the path alone. -/
theorem xcon_c8_counterexample :
    (mkDirectoryRaw (some "/\x7bservice\x7d") none none false none).path =
      (mkDirectoryRaw (some "/\x7bservice\x7d") none none false (some false)).path ∧
    dirEqB (mkDirectoryRaw (some "/\x7bservice\x7d") none none false none)
      (mkDirectoryRaw (some "/\x7bservice\x7d") none none false (some false)) = false ∧
    dirHashFields (mkDirectoryRaw (some "/\x7bservice\x7d") none none false none) =
      dirHashFields (mkDirectoryRaw (some "/\x7bservice\x7d") none none false (some false)) ∧
    mkDirectory (some "/\x7bservice\x7d") none none false (some false) =
      .ok (mkDirectoryRaw (some "/\x7bservice\x7d") none none false (some false)) := by
  refine ⟨by decide, by decide, by decide, by rfl⟩

/-- C8 (amended): directory equality is on the pair of path and path-format
flag; hashing is on the path alone; and for directories built with the
default auto-discovered flag, equal paths do imply equality. -/
theorem xcon_c8_claim :
    (∀ d1 d2 : PyDirectory,
        dirEqB d1 d2 = true ↔ d1.path = d2.path ∧ d1.isPathFormat = d2.isPathFormat) ∧
    (∀ d1 d2 : PyDirectory, d1.path = d2.path → dirHashFields d1 = dirHashFields d2) ∧
    (∀ (pa1 sa1 ea1 : Option String) (ex1 : Bool) (pa2 sa2 ea2 : Option String)
        (ex2 : Bool),
        (mkDirectoryRaw pa1 sa1 ea1 ex1 none).path =
          (mkDirectoryRaw pa2 sa2 ea2 ex2 none).path →
        dirEqB (mkDirectoryRaw pa1 sa1 ea1 ex1 none)
          (mkDirectoryRaw pa2 sa2 ea2 ex2 none) = true) := by
  refine ⟨?_, ?_, ?_⟩
  · intro d1 d2
    simp [dirEqB]
  · intro d1 d2 h
    unfold dirHashFields
    exact h
  · intro pa1 sa1 ea1 ex1 pa2 sa2 ea2 ex2 h
    simp [dirEqB, h]
    rw [mkDirectoryRaw_auto_ipf, mkDirectoryRaw_auto_ipf, h]

/-- C8 witness: path-determined equality for two auto-flag directories with
the same path. -/
theorem xcon_c8_witness :
    dirEqB (mkDirectoryRaw (some "/a/b") none none false none)
      (mkDirectoryRaw none (some "a") (some "b") false none) = true :=
  xcon_c8_claim.2.2 (some "/a/b") none none false none (some "a") (some "b") false
    (by decide)

/-! ## Claim C9 -/

/-- C9 counterexample: after a recoverable error the directory is recorded as
errored, and while the local cache holds the empty listing there is no second
remote contact; but after a cache reset the same provider instance contacts
the remote service again for that very directory. -/
theorem xcon_c9_counterexample :
    ((ssmItemOnlyForDirectory ⟨[], []⟩ .recoverableError "x" sampleDirA).state.erroredDirs =
      ["/s/e"]) ∧
    ((ssmItemOnlyForDirectory
        (ssmItemOnlyForDirectory ⟨[], []⟩ .recoverableError "x" sampleDirA).state
        .recoverableError "x" sampleDirA).contactedRemote = false) ∧
    ((ssmItemOnlyForDirectory
        (ssmResetCache
          (ssmItemOnlyForDirectory ⟨[], []⟩ .recoverableError "x" sampleDirA).state)
        (.ok [("/s/e/x", "v")]) "x" sampleDirA).contactedRemote = true) := by decide

/-- C9 (amended): a recoverable error stores an empty listing and marks the
directory errored; the remote service is not contacted again for a directory
while its listing is in the local cache; but a cache reset clears every
listing, so the next call for that directory contacts the remote service
again — the skip lasts only as long as the local cache entry. -/
theorem xcon_c9_claim :
    (∀ (st : SsmState) (remote : SsmRemote) (name : String) (d : PyDirectory),
        (ssmCacheGet st d.path).isSome = true →
        (ssmItemOnlyForDirectory st remote name d).contactedRemote = false) ∧
    (∀ (st : SsmState) (name : String) (d : PyDirectory),
        ssmCacheGet st d.path = none →
        (ssmItemOnlyForDirectory st .recoverableError name d).contactedRemote = true ∧
        ssmCacheGet (ssmItemOnlyForDirectory st .recoverableError name d).state d.path =
          some [] ∧
        d.path ∈ (ssmItemOnlyForDirectory st .recoverableError name d).state.erroredDirs ∧
        (ssmItemOnlyForDirectory st .recoverableError name d).result = none) ∧
    (∀ (st : SsmState) (d : PyDirectory), ssmCacheGet (ssmResetCache st) d.path = none) ∧
    (∀ (st : SsmState) (remote : SsmRemote) (name : String) (d : PyDirectory),
        (ssmItemOnlyForDirectory (ssmResetCache st) remote name d).contactedRemote =
          true) := by
  have hreset : ∀ (st : SsmState) (d : PyDirectory),
      ssmCacheGet (ssmResetCache st) d.path = none := by
    intro st d
    simp [ssmResetCache, ssmCacheGet]
  refine ⟨?_, ?_, hreset, ?_⟩
  · intro st remote name d h
    obtain ⟨l, hl⟩ := Option.isSome_iff_exists.mp h
    simp [ssmItemOnlyForDirectory, hl]
  · intro st name d h
    have hfind : st.localCache.find? (fun kv => kv.1 = d.path) = none := by
      unfold ssmCacheGet at h
      exact Option.map_eq_none.mp h
    refine ⟨?_, ?_, ?_, ?_⟩
    · simp [ssmItemOnlyForDirectory, h]
    · simp only [ssmItemOnlyForDirectory, h]
      unfold ssmCacheGet
      rw [find_append_right _ _ _ hfind]
      simp [List.find?]
    · simp [ssmItemOnlyForDirectory, h]
    · simp [ssmItemOnlyForDirectory, h, mapGet]
  · intro st remote name d
    cases remote <;> simp [ssmItemOnlyForDirectory, hreset st d]

/-- C9 witness: the amended behaviour on the concrete error trace. -/
theorem xcon_c9_witness :
    (ssmItemOnlyForDirectory (ssmResetCache
        (ssmItemOnlyForDirectory ⟨[], []⟩ .recoverableError "x" sampleDirA).state)
      (.ok []) "x" sampleDirA).contactedRemote = true :=
  xcon_c9_claim.2.2.2
    (ssmItemOnlyForDirectory ⟨[], []⟩ .recoverableError "x" sampleDirA).state
    (.ok []) "x" sampleDirA

/-! ## Claim C10 -/

/-- C10: when the resolved service is global the lookup runs with no cacher
and no environ (the cacher resolution is not even invoked), and with no
cacher the chain sequence is the plain provider list and nothing is ever
written; for any other non-empty service the configured cacher resolution is
applied and its result is used whenever the chain has cachable providers. -/
theorem xcon_c10_claim (service environment : String)
    (resolvedCacher : Option Nat) (haveCachable : Bool) :
    (service = "global" →
      getItemCacherSelection service environment resolvedCacher haveCachable =
        (none, none, false)) ∧
    (service ≠ "global" →
      (getItemCacherSelection service environment resolvedCacher haveCachable).2.2 =
        true ∧
      (getItemCacherSelection service environment resolvedCacher haveCachable).1 =
        (if haveCachable then resolvedCacher else none)) ∧
    (∀ ps : List ProviderModel, providersWithCacher ps none = ps) ∧
    (∀ (ps : List ProviderModel) (name : String) (dirs : List PyDirectory),
      (chainGetItem ps none none name dirs).cacheWrite = none) := by
  refine ⟨?_, ?_, providersWithCacher_none, fun ps name dirs =>
    chainGetItem_none_write ps name dirs⟩
  · intro h
    subst h
    simp [getItemCacherSelection]
  · intro h
    unfold getItemCacherSelection
    have happ : (decide (service = "") || decide (service ≠ "global")) = true := by
      simp [h]
    rw [happ]
    cases resolvedCacher with
    | none => cases haveCachable <;> simp
    | some c => cases haveCachable <;> simp

/-- C10 witness: the selection at the global service and at a normal
service. -/
theorem xcon_c10_witness :
    getItemCacherSelection "global" "prod" (some 1) true = (none, none, false) ∧
    (getItemCacherSelection "svc" "prod" (some 1) true).1 =
      (if true then some 1 else none) :=
  ⟨(xcon_c10_claim "global" "prod" (some 1) true).1 rfl,
   ((xcon_c10_claim "svc" "prod" (some 1) true).2.1 (by decide)).2⟩

end Xcon
